import Mathlib

/-!
# Verification of the LLM cost-calculator pricing and quota engine

Shallow embedding of `src/js/calculator.js` (the `Calculator` object).
JavaScript numbers are modelled as exact rationals (`ℚ`), extended with
`±Infinity` (`ENum`) where the source can produce an infinity
(`Math.min` with `Infinity`, division by zero).  Nullable model fields
(`context_window`, `tpm_limit`, `rpm_limit`, `ptu_price_monthly`) are
modelled by `JVal`, which distinguishes `undefined`, `null` and a number,
because JavaScript comparison and truthiness treat those differently
(`x > null` coerces `null` to `0`, while `x > undefined` is `false`).
`NaN` is not modelled: at every call site in the embedded functions a
would-be `NaN` operand is excluded by the surrounding truthiness guard,
as noted where relevant.
-/

/-- A JavaScript value stored in a nullable numeric field:
`undefined`, `null`, or a number (modelled as an exact rational). -/
inductive JVal where
  | undef : JVal
  | null : JVal
  | num : ℚ → JVal
deriving DecidableEq

/-- JavaScript truthiness of a `JVal`: `undefined`, `null` and `0` are
falsy, every other number is truthy. -/
def jsTruthy : JVal → Bool
  | .num q => q != 0
  | _ => false

/-- JavaScript `a > v` where `a` is a number and `v` a nullable field:
`a > undefined` is `false` (NaN comparison); `a > null` coerces `null`
to `0`; `a > q` is the numeric comparison. -/
def jsGT (a : ℚ) : JVal → Bool
  | .undef => false
  | .null => decide (0 < a)
  | .num q => decide (q < a)

/-- JavaScript `a <= v` for a nullable field `v`, with the same
coercions as `jsGT`. -/
def jsLE (a : ℚ) : JVal → Bool
  | .undef => false
  | .null => decide (a ≤ 0)
  | .num q => decide (a ≤ q)

/-- JavaScript `v || null` (used for `model.tpm_limit || null`):
keeps a truthy number, collapses everything falsy to `null`. -/
def jsOrNull (v : JVal) : JVal :=
  if jsTruthy v then v else .null

/-- JavaScript `v || d` with a numeric default `d`
(used for `comp.totalRequests || 10000` and similar). -/
def jsOrDefault (v : JVal) (d : ℚ) : ℚ :=
  match v with
  | .num q => if q = 0 then d else q
  | _ => d

/-- JavaScript `v * c` for a nullable field `v` (used in
`limits.rpm * 0.8`): `null` coerces to `0`.  `undefined * c` is `NaN`
in JavaScript; it is mapped to `0` here, which is unobservable because
every use is guarded by `jsTruthy v`. -/
def jvalMul (v : JVal) (c : ℚ) : ℚ :=
  match v with
  | .num q => q * c
  | _ => 0

/-- A JavaScript number extended with the two infinities.  `NaN` is not
included; see the module docstring. -/
inductive ENum where
  | ninf : ENum
  | fin : ℚ → ENum
  | inf : ENum
deriving DecidableEq

/-- `Math.min` on two extended numbers (neither is `NaN`). -/
def ENum.emin : ENum → ENum → ENum
  | .ninf, _ => .ninf
  | _, .ninf => .ninf
  | .inf, b => b
  | a, .inf => a
  | .fin a, .fin b => .fin (min a b)

/-- JavaScript percentage `a / v * 100` for a nullable divisor `v`, as
written in the warning objects of `validateQuotas`.  Division by zero
(from `null` or a zero number) follows JavaScript and yields `±Infinity`
by the sign of `a`; the `0 / 0` (`NaN`) and `undefined` cases are mapped
to `fin 0`, which is unobservable because the corresponding warning is
only constructed when `jsGT a v` holds, excluding those cases. -/
def jsPct (a : ℚ) : JVal → ENum
  | .num q =>
      if q = 0 then (if 0 < a then .inf else if a < 0 then .ninf else .fin 0)
      else .fin (a / q * 100)
  | .null => if 0 < a then .inf else if a < 0 then .ninf else .fin 0
  | .undef => .fin 0

/-- One priced LLM offering, as loaded from the CSV catalog or added by
the user.  Prices for the PAYG branch are plain numbers; the nullable
limit fields and `ptu_price_monthly` are `JVal`. -/
structure ModelRecord where
  provider : String
  model : String
  pricing_type : String
  input_price_per_1m : ℚ
  output_price_per_1m : ℚ
  ptu_price_monthly : JVal
  context_window : JVal
  tpm_limit : JVal
  rpm_limit : JVal
deriving DecidableEq

/-- Result of `Calculator.calculateRequestCost`. -/
structure RequestCost where
  inputCost : ℚ
  outputCost : ℚ
  totalCost : ℚ
  inputTokens : ℚ
  outputTokens : ℚ
  isPTU : Bool
deriving DecidableEq

/-- `Calculator.calculateRequestCost(model, inputTokens, outputTokens)`. -/
def calculateRequestCost (model : ModelRecord) (inputTokens outputTokens : ℚ) :
    RequestCost :=
  if model.pricing_type = "PTU" then
    { inputCost := 0, outputCost := 0, totalCost := 0
      inputTokens := inputTokens, outputTokens := outputTokens, isPTU := true }
  else
    let inputCost := inputTokens / 1000000 * model.input_price_per_1m
    let outputCost := outputTokens / 1000000 * model.output_price_per_1m
    { inputCost := inputCost, outputCost := outputCost
      totalCost := inputCost + outputCost
      inputTokens := inputTokens, outputTokens := outputTokens, isPTU := false }

/-- One warning object pushed by `validateQuotas`.  The display-only
`message` string (built with `Utils.formatNumber`) is not modelled. -/
structure Warning where
  type : String
  severity : String
  limit : JVal
  current : ℚ
  percentage : ENum
deriving DecidableEq

/-- The `limits` sub-object of a validation result. -/
structure LimitsRec where
  tpm : JVal
  rpm : JVal
deriving DecidableEq

/-- The `usage` sub-object of a validation result. -/
structure UsageRec where
  tokensPerMinute : ℚ
  requestsPerMinute : ℚ
  tokensPerRequest : ℚ
deriving DecidableEq

/-- Result of `Calculator.validateQuotas`. -/
structure ValidationResult where
  valid : Bool
  warnings : List Warning
  limits : LimitsRec
  usage : UsageRec
deriving DecidableEq

/-- `Calculator.validateQuotas(model, inputTokens, outputTokens,
requestsPerMinute)`.  The five checks push warnings in source order:
RPM over-limit, TPM over-limit, context-window over-limit, RPM
near-limit (80%), TPM near-limit (80%).  Note the context check
compares against `model.context_window` directly, with no
`|| null` guard, so JavaScript coercion applies to a `null` value. -/
def validateQuotas (model : ModelRecord)
    (inputTokens outputTokens requestsPerMinute : ℚ) : ValidationResult :=
  let tokensPerRequest := inputTokens + outputTokens
  let tokensPerMinute := tokensPerRequest * requestsPerMinute
  let limTpm := jsOrNull model.tpm_limit
  let limRpm := jsOrNull model.rpm_limit
  let w1 : List Warning :=
    if jsTruthy limRpm && jsGT requestsPerMinute limRpm then
      [{ type := "rpm", severity := "error", limit := limRpm
         current := requestsPerMinute
         percentage := jsPct requestsPerMinute limRpm }]
    else []
  let w2 : List Warning :=
    if jsTruthy limTpm && jsGT tokensPerMinute limTpm then
      [{ type := "tpm", severity := "error", limit := limTpm
         current := tokensPerMinute
         percentage := jsPct tokensPerMinute limTpm }]
    else []
  let w3 : List Warning :=
    if jsGT tokensPerRequest model.context_window then
      [{ type := "context", severity := "error", limit := model.context_window
         current := tokensPerRequest
         percentage := jsPct tokensPerRequest model.context_window }]
    else []
  let w4 : List Warning :=
    if jsTruthy limRpm && decide (jvalMul limRpm (4/5) < requestsPerMinute)
        && jsLE requestsPerMinute limRpm then
      [{ type := "rpm", severity := "warning", limit := limRpm
         current := requestsPerMinute
         percentage := jsPct requestsPerMinute limRpm }]
    else []
  let w5 : List Warning :=
    if jsTruthy limTpm && decide (jvalMul limTpm (4/5) < tokensPerMinute)
        && jsLE tokensPerMinute limTpm then
      [{ type := "tpm", severity := "warning", limit := limTpm
         current := tokensPerMinute
         percentage := jsPct tokensPerMinute limTpm }]
    else []
  let warnings := w1 ++ w2 ++ w3 ++ w4 ++ w5
  { valid := (warnings.filter (fun w => w.severity == "error")).length = 0
    warnings := warnings
    limits := { tpm := limTpm, rpm := limRpm }
    usage := { tokensPerMinute := tokensPerMinute
               requestsPerMinute := requestsPerMinute
               tokensPerRequest := tokensPerRequest } }

/-- Result of `Calculator.calculateMaxCapacity`.  The source returns
`maxByRPM` and `maxByTPM` but not `maxByContext`. -/
structure CapacityResult where
  maxRequestsPerMinute : ENum
  limitedBy : String
  maxByRPM : ENum
  maxByTPM : ENum
  tokensPerRequest : ℚ
deriving DecidableEq

/-- The local `const maxByRPM = model.rpm_limit || Infinity` of
`calculateMaxCapacity`: a truthy number is kept, everything falsy
(absent, `null`, `0`) gives `Infinity`. -/
def capMaxByRPM (model : ModelRecord) : ENum :=
  match model.rpm_limit with
  | .num q => if q = 0 then .inf else .fin q
  | _ => .inf

/-- The local `const maxByTPM = model.tpm_limit ?
Math.floor(model.tpm_limit / tokensPerRequest) : Infinity` of
`calculateMaxCapacity`.  When `tokensPerRequest = 0` the JavaScript
division of the truthy (hence nonzero) limit by zero gives `±Infinity`
by the sign of the limit, and `Math.floor` keeps the infinity. -/
def capMaxByTPM (model : ModelRecord) (tokensPerRequest : ℚ) : ENum :=
  match model.tpm_limit with
  | .num t =>
      if t = 0 then .inf
      else if tokensPerRequest = 0 then (if 0 < t then .inf else .ninf)
      else .fin (⌊t / tokensPerRequest⌋ : ℤ)
  | _ => .inf

/-- The local `const maxByContext = tokensPerRequest <=
model.context_window ? Infinity : 0` of `calculateMaxCapacity`,
with JavaScript `<=` against the nullable `context_window`. -/
def capMaxByContext (model : ModelRecord) (tokensPerRequest : ℚ) : ENum :=
  if jsLE tokensPerRequest model.context_window then .inf else .fin 0

/-- `Calculator.calculateMaxCapacity(model, inputTokens, outputTokens)`.
The three local bounds are the named definitions above;
`Math.min(a, b, c)` is the two-fold `emin`. -/
def calculateMaxCapacity (model : ModelRecord) (inputTokens outputTokens : ℚ) :
    CapacityResult :=
  let tokensPerRequest := inputTokens + outputTokens
  let maxByRPM : ENum := capMaxByRPM model
  let maxByTPM : ENum := capMaxByTPM model tokensPerRequest
  let maxByContext : ENum := capMaxByContext model tokensPerRequest
  let maxRequestsPerMinute := maxByRPM.emin (maxByTPM.emin maxByContext)
  { maxRequestsPerMinute := maxRequestsPerMinute
    limitedBy :=
      if maxRequestsPerMinute = maxByRPM then "rpm"
      else if maxRequestsPerMinute = maxByTPM then "tpm"
      else if maxRequestsPerMinute = .fin 0 then "context"
      else "none"
    maxByRPM := maxByRPM
    maxByTPM := maxByTPM
    tokensPerRequest := tokensPerRequest }

/-- The projection object returned by `Calculator.calculateTotalCost`.
Fields set to `null` by the source in some branches (`duration`,
`runtimeMinutes`) and the field present only in the PTU branch
(`ptuMonthlyPrice`) are modelled with `Option`. -/
structure CostProjection where
  mode : String
  period : String
  duration : Option String
  rpm : ℚ
  totalRequests : ℚ
  runtimeMinutes : Option ℚ
  totalInputTokens : ℚ
  totalOutputTokens : ℚ
  totalInputCost : ℚ
  totalOutputCost : ℚ
  totalCost : ℚ
  costPerRequest : ℚ
  isPTU : Bool
  ptuMonthlyPrice : Option ℚ
deriving DecidableEq

/-- The `options` object of `calculateTotalCost`.  `Option` models a
field left `undefined`, in which case the destructuring default of the
source (`mode = 'duration'`, `duration = 'day'`,
`totalRequests = 10000`, `daysPerMonth = 30`) applies. -/
structure CalcOptions where
  mode : Option String
  duration : Option String
  totalRequests : Option ℚ
  daysPerMonth : Option ℚ
deriving DecidableEq

/-- `Calculator.calculateTotalCost(requestCost, rpm, options, model)`.
The legacy call signature in which `options` is a plain string is not
modelled; every claim (and `compareModels`) uses the options-object
API.  Divisions follow JavaScript except that a division by zero
(possible only when a caller passes `daysPerMonth = 0`, which no claim
and no orchestrator call does) yields `0` here instead of `Infinity`. -/
def calculateTotalCost (requestCost : RequestCost) (rpm : ℚ)
    (options : CalcOptions) (model : Option ModelRecord) : CostProjection :=
  let mode := options.mode.getD "duration"
  let duration := options.duration.getD "day"
  let totalRequests := options.totalRequests.getD 10000
  let daysPerMonth := options.daysPerMonth.getD 30
  let multiplier : ℚ :=
    match duration with
    | "hour" => 60
    | "day" => 60 * 24
    | "month" => 60 * 24 * daysPerMonth
    | _ => 60 * 24
  let calculatedTotalRequests : ℚ :=
    if mode = "total" then totalRequests else rpm * multiplier
  let runtimeMinutes : ℚ :=
    if mode = "total" then (if 0 < rpm then totalRequests / rpm else 0)
    else multiplier
  let period := if mode = "total" then "total" else duration
  let totalInputTokens := requestCost.inputTokens * calculatedTotalRequests
  let totalOutputTokens := requestCost.outputTokens * calculatedTotalRequests
  let ptuGuard :=
    requestCost.isPTU &&
      (match model with
       | some m => jsTruthy m.ptu_price_monthly
       | none => false)
  if ptuGuard then
    -- `parseFloat(model.ptu_price_monthly) || 0`; the guard ensures the
    -- field is a truthy number, so this extracts that number.
    let ptuMonthlyPrice : ℚ :=
      match model with
      | some m => (match m.ptu_price_monthly with | .num p => p | _ => 0)
      | none => 0
    let totalCost : ℚ :=
      if mode = "total" then
        ptuMonthlyPrice * (runtimeMinutes / (daysPerMonth * 24 * 60))
      else
        match duration with
        | "hour" => ptuMonthlyPrice / (daysPerMonth * 24)
        | "day" => ptuMonthlyPrice / daysPerMonth
        | "month" => ptuMonthlyPrice
        | _ => ptuMonthlyPrice
    { mode := mode
      period := period
      duration := if mode = "duration" then some duration else none
      rpm := rpm
      totalRequests := calculatedTotalRequests
      runtimeMinutes := if mode = "total" then some runtimeMinutes else none
      totalInputTokens := totalInputTokens
      totalOutputTokens := totalOutputTokens
      totalInputCost := 0
      totalOutputCost := 0
      totalCost := totalCost
      costPerRequest :=
        if 0 < calculatedTotalRequests then totalCost / calculatedTotalRequests
        else 0
      isPTU := true
      ptuMonthlyPrice := some ptuMonthlyPrice }
  else
    { mode := mode
      period := period
      duration := if mode = "duration" then some duration else none
      rpm := rpm
      totalRequests := calculatedTotalRequests
      runtimeMinutes := if mode = "total" then some runtimeMinutes else none
      totalInputTokens := totalInputTokens
      totalOutputTokens := totalOutputTokens
      totalInputCost := requestCost.inputCost * calculatedTotalRequests
      totalOutputCost := requestCost.outputCost * calculatedTotalRequests
      totalCost := requestCost.totalCost * calculatedTotalRequests
      costPerRequest := requestCost.totalCost
      isPTU := false
      ptuMonthlyPrice := none }

/-- One element of the array passed to `Calculator.compareModels`.
Numeric fields read through `||`-defaulting are `JVal`; the string
field `calcMode`/`duration` and the `enabled` flag are `Option`
(an absent field; the falsy empty string is not distinguished). -/
structure ComparisonInput where
  model : ModelRecord
  inputTokens : ℚ
  outputTokens : ℚ
  rpm : JVal
  requestsPerMinute : JVal
  calcMode : Option String
  duration : Option String
  totalRequests : JVal
  daysPerMonth : JVal
  enabled : Option Bool
deriving DecidableEq

/-- One element of the array returned by `compareModels`. -/
structure ComparisonResult where
  model : ModelRecord
  requestCost : RequestCost
  totalCost : CostProjection
  validation : ValidationResult
  maxCapacity : CapacityResult
  enabled : Bool
deriving DecidableEq

/-- The body of the `comparisons.map(comp => ...)` closure inside
`Calculator.compareModels`: evaluate one entry through the request-cost,
total-cost, quota and capacity functions, applying the `||` defaults of
the source (`comp.rpm || comp.requestsPerMinute || 100`,
`comp.calcMode || 'duration'`, `comp.duration || 'day'`,
`comp.totalRequests || 10000`, `comp.daysPerMonth || 30`,
`comp.enabled !== false`). -/
def evalComparison (comp : ComparisonInput) : ComparisonResult :=
  let requestCost :=
    calculateRequestCost comp.model comp.inputTokens comp.outputTokens
  let calcOptions : CalcOptions :=
    { mode := some (comp.calcMode.getD "duration")
      duration := some (comp.duration.getD "day")
      totalRequests := some (jsOrDefault comp.totalRequests 10000)
      daysPerMonth := some (jsOrDefault comp.daysPerMonth 30) }
  let rpmValue := jsOrDefault comp.rpm (jsOrDefault comp.requestsPerMinute 100)
  { model := comp.model
    requestCost := requestCost
    totalCost := calculateTotalCost requestCost rpmValue calcOptions (some comp.model)
    validation :=
      validateQuotas comp.model comp.inputTokens comp.outputTokens rpmValue
    maxCapacity :=
      calculateMaxCapacity comp.model comp.inputTokens comp.outputTokens
    enabled := comp.enabled != some false }

/-- `Calculator.compareModels(comparisons)`: map each entry through
`evalComparison`, then sort ascending by `totalCost.totalCost`.
JavaScript `Array.prototype.sort` is required to be stable (ES2019),
and the comparator `(a, b) => a.totalCost.totalCost -
b.totalCost.totalCost` orders ascending by that key, so the sort is
modelled by the stable `List.mergeSort` on the `≤` of the key. -/
def compareModels (comparisons : List ComparisonInput) : List ComparisonResult :=
  let results := comparisons.map evalComparison
  results.mergeSort (fun a b => decide (a.totalCost.totalCost ≤ b.totalCost.totalCost))

/-! ### Concrete records used by witnesses and counterexamples -/

/-- A PAYG record with `tpm_limit = 3` and `context_window = 3` and no
other limit, so that at 4 tokens per request both the TPM bound and the
context bound are `0`. -/
def exModelTpmTie : ModelRecord :=
  { provider := "p", model := "m", pricing_type := "PAYG"
    input_price_per_1m := 0, output_price_per_1m := 0
    ptu_price_monthly := .undef, context_window := .num 3
    tpm_limit := .num 3, rpm_limit := .undef }

/-- A PAYG record whose only limit is `context_window = 3`. -/
def exModelCtxOnly : ModelRecord :=
  { provider := "p", model := "m", pricing_type := "PAYG"
    input_price_per_1m := 0, output_price_per_1m := 0
    ptu_price_monthly := .undef, context_window := .num 3
    tpm_limit := .undef, rpm_limit := .undef }

/-- A PAYG record with every limit field absent (`undefined`). -/
def exModelAllAbsent : ModelRecord :=
  { provider := "p", model := "m", pricing_type := "PAYG"
    input_price_per_1m := 0, output_price_per_1m := 0
    ptu_price_monthly := .undef, context_window := .undef
    tpm_limit := .undef, rpm_limit := .undef }

/-- A PAYG record whose `context_window` is `null` and whose other
limit fields are absent. -/
def exModelCtxNull : ModelRecord :=
  { provider := "p", model := "m", pricing_type := "PAYG"
    input_price_per_1m := 0, output_price_per_1m := 0
    ptu_price_monthly := .undef, context_window := .null
    tpm_limit := .undef, rpm_limit := .undef }

/-- A PAYG record with the explicit limit value `rpm_limit = 0`. -/
def exModelRpmZero : ModelRecord :=
  { provider := "p", model := "m", pricing_type := "PAYG"
    input_price_per_1m := 0, output_price_per_1m := 0
    ptu_price_monthly := .undef, context_window := .undef
    tpm_limit := .undef, rpm_limit := .num 0 }

/-- A PAYG record with `rpm_limit = 5` and `tpm_limit = 100`. -/
def exModelRpmTpm : ModelRecord :=
  { provider := "p", model := "m", pricing_type := "PAYG"
    input_price_per_1m := 0, output_price_per_1m := 0
    ptu_price_monthly := .undef, context_window := .undef
    tpm_limit := .num 100, rpm_limit := .num 5 }

/-- A PTU record with `ptu_price_monthly = 3000`. -/
def exModelPTU : ModelRecord :=
  { provider := "p", model := "m", pricing_type := "PTU"
    input_price_per_1m := 0, output_price_per_1m := 0
    ptu_price_monthly := .num 3000, context_window := .undef
    tpm_limit := .undef, rpm_limit := .undef }

/-- A PTU record whose `ptu_price_monthly` is `null`. -/
def exModelPTUNoPrice : ModelRecord :=
  { provider := "p", model := "m", pricing_type := "PTU"
    input_price_per_1m := 0, output_price_per_1m := 0
    ptu_price_monthly := .null, context_window := .undef
    tpm_limit := .undef, rpm_limit := .undef }

/-- A PAYG record with per-1M prices 1 and 2. -/
def exModelPAYG : ModelRecord :=
  { provider := "p", model := "m", pricing_type := "PAYG"
    input_price_per_1m := 1, output_price_per_1m := 2
    ptu_price_monthly := .undef, context_window := .undef
    tpm_limit := .undef, rpm_limit := .undef }

/-! ### Helper lemmas -/

theorem ENum.fin_ne_inf (q : ℚ) : ¬ (ENum.fin q = ENum.inf) :=
  fun h => ENum.noConfusion h

theorem ENum.fin_ne_ninf (q : ℚ) : ¬ (ENum.fin q = ENum.ninf) :=
  fun h => ENum.noConfusion h

theorem ENum.inf_ne_fin (q : ℚ) : ¬ (ENum.inf = ENum.fin q) :=
  fun h => ENum.noConfusion h

theorem ENum.emin_inf_left (b : ENum) : ENum.emin .inf b = b := by
  cases b <;> rfl

theorem ENum.emin_inf_right (a : ENum) : ENum.emin a .inf = a := by
  cases a <;> rfl

theorem ENum.emin_fin_fin (a b : ℚ) :
    ENum.emin (.fin a) (.fin b) = .fin (min a b) := rfl

theorem ENum.emin_choice (a b : ENum) : a.emin b = a ∨ a.emin b = b := by
  cases a <;> cases b <;> try simp [ENum.emin]
  exact le_total _ _

/-- The RPM bound is either `Infinity` or a positive number whenever a
present `rpm_limit` is nonnegative. -/
theorem capMaxByRPM_cases (m : ModelRecord)
    (h : ∀ q, m.rpm_limit = .num q → 0 ≤ q) :
    capMaxByRPM m = .inf ∨ ∃ q : ℚ, 0 < q ∧ capMaxByRPM m = .fin q := by
  rcases hr : m.rpm_limit with _ | _ | q
  · left; simp [capMaxByRPM, hr]
  · left; simp [capMaxByRPM, hr]
  · by_cases hq : q = 0
    · left; simp [capMaxByRPM, hr, hq]
    · right
      exact ⟨q, lt_of_le_of_ne (h q hr) (Ne.symm hq), by simp [capMaxByRPM, hr, hq]⟩

/-- The TPM bound is either `Infinity` or a nonnegative finite number
whenever a present `tpm_limit` is nonnegative and the token count is
nonnegative. -/
theorem capMaxByTPM_cases (m : ModelRecord) (tok : ℚ)
    (h : ∀ q, m.tpm_limit = .num q → 0 ≤ q) (htok : 0 ≤ tok) :
    capMaxByTPM m tok = .inf ∨
      ∃ k : ℚ, 0 ≤ k ∧ capMaxByTPM m tok = .fin k := by
  rcases ht : m.tpm_limit with _ | _ | t
  · left; simp [capMaxByTPM, ht]
  · left; simp [capMaxByTPM, ht]
  · by_cases ht0 : t = 0
    · left; simp [capMaxByTPM, ht, ht0]
    · have htpos : 0 < t := lt_of_le_of_ne (h t ht) (Ne.symm ht0)
      by_cases htok0 : tok = 0
      · left; simp [capMaxByTPM, ht, ht0, htok0, htpos]
      · right
        refine ⟨(⌊t / tok⌋ : ℤ), ?_, by simp [capMaxByTPM, ht, ht0, htok0]⟩
        have : (0 : ℚ) ≤ t / tok :=
          div_nonneg htpos.le (lt_of_le_of_ne htok (Ne.symm htok0)).le
        exact_mod_cast Int.floor_nonneg.mpr this

theorem strNe_context_rpm : ¬ ("context" = "rpm") := by decide

theorem strNe_context_none : ¬ ("context" = "none") := by decide

theorem strNe_rpm_none : ¬ ("rpm" = "none") := by decide

theorem strNe_tpm_none : ¬ ("tpm" = "none") := by decide

theorem strNe_tpm_context : ¬ ("tpm" = "context") := by decide

theorem ENum.emin_fin_zero {k : ℚ} (hk : 0 ≤ k) :
    ENum.emin (.fin k) (.fin 0) = .fin 0 := by
  rw [ENum.emin_fin_fin, min_eq_right hk]

/-- `limitedBy` is attributed to `rpm`, `tpm` or `context`; in the
`context` case the returned capacity is `0`.  The `'none'` branch of
the source is dead code: the minimum of the three bounds always equals
one of them, and the context bound is either `Infinity` (in which case
the minimum equals one of the other two) or `0`. -/
theorem calculateMaxCapacity_limitedBy_cases (m : ModelRecord) (i o : ℚ) :
    (calculateMaxCapacity m i o).limitedBy = "rpm" ∨
    (calculateMaxCapacity m i o).limitedBy = "tpm" ∨
    ((calculateMaxCapacity m i o).limitedBy = "context" ∧
     (calculateMaxCapacity m i o).maxRequestsPerMinute = .fin 0) := by
  simp only [calculateMaxCapacity]
  by_cases h1 : (capMaxByRPM m).emin
      ((capMaxByTPM m (i + o)).emin (capMaxByContext m (i + o))) = capMaxByRPM m
  · left; rw [if_pos h1]
  · by_cases h2 : (capMaxByRPM m).emin
        ((capMaxByTPM m (i + o)).emin (capMaxByContext m (i + o))) =
        capMaxByTPM m (i + o)
    · right; left; rw [if_neg h1, if_pos h2]
    · right; right
      have hC : capMaxByContext m (i + o) = .fin 0 := by
        cases hbool : jsLE (i + o) m.context_window
        · simp [capMaxByContext, hbool]
        · exfalso
          have hCinf : capMaxByContext m (i + o) = .inf := by
            simp [capMaxByContext, hbool]
          rw [hCinf, ENum.emin_inf_right] at h1 h2
          rcases ENum.emin_choice (capMaxByRPM m) (capMaxByTPM m (i + o)) with h | h
          · exact h1 h
          · exact h2 h
      have hM : (capMaxByRPM m).emin
          ((capMaxByTPM m (i + o)).emin (capMaxByContext m (i + o))) =
          capMaxByContext m (i + o) := by
        rcases ENum.emin_choice (capMaxByRPM m)
            ((capMaxByTPM m (i + o)).emin (capMaxByContext m (i + o))) with h | h
        · exact absurd h h1
        · rcases ENum.emin_choice (capMaxByTPM m (i + o))
              (capMaxByContext m (i + o)) with h' | h'
          · exact absurd (h.trans h') h2
          · exact h.trans h'
      have hM0 : (capMaxByRPM m).emin
          ((capMaxByTPM m (i + o)).emin (capMaxByContext m (i + o))) = .fin 0 :=
        hM.trans hC
      rw [if_neg h1, if_neg h2, if_pos hM0]
      exact ⟨rfl, hM0⟩

/-- C1 (amended): when `inputTokens + outputTokens` exceeds a present
`context_window`, `estimateCapacity` (`calculateMaxCapacity`) always
returns `maxRequestsPerMinute = 0`; `limitedBy` is `'context'` when the
TPM bound is nonzero, but when `maxByTPM` is itself `0` (a present
positive `tpm_limit` smaller than `tokensPerRequest`) the equality
tie-break of the source, checked in the order rpm, tpm, context,
attributes the zero capacity to `'tpm'` instead. -/
theorem c1_capacity_zero_amended (m : ModelRecord) (i o c : ℚ)
    (hc : m.context_window = .num c) (hi : 0 ≤ i) (ho : 0 ≤ o)
    (hrpm : ∀ q, m.rpm_limit = .num q → 0 ≤ q)
    (htpm : ∀ q, m.tpm_limit = .num q → 0 ≤ q)
    (hover : c < i + o) :
    (calculateMaxCapacity m i o).maxRequestsPerMinute = .fin 0 ∧
    ((calculateMaxCapacity m i o).maxByTPM ≠ .fin 0 →
      (calculateMaxCapacity m i o).limitedBy = "context") ∧
    ((calculateMaxCapacity m i o).maxByTPM = .fin 0 →
      (calculateMaxCapacity m i o).limitedBy = "tpm") := by
  have hctx : capMaxByContext m (i + o) = .fin 0 := by
    simp [capMaxByContext, jsLE, hc]
    exact hover
  rcases capMaxByRPM_cases m hrpm with hA | ⟨q, hq, hA⟩ <;>
    rcases capMaxByTPM_cases m (i + o) htpm (by positivity) with hB | ⟨k, hk, hB⟩
  · simp [calculateMaxCapacity, hA, hB, hctx, ENum.emin_inf_left,
      ENum.fin_ne_inf, ENum.inf_ne_fin]
  · by_cases hk0 : k = 0
    · subst hk0
      simp [calculateMaxCapacity, hA, hB, hctx, ENum.emin_inf_left,
        ENum.emin_fin_zero hk, ENum.fin_ne_inf, ENum.inf_ne_fin]
    · have : ¬ (ENum.fin 0 = ENum.fin k) := by
        simp only [ENum.fin.injEq]; exact fun h => hk0 h.symm
      simp [calculateMaxCapacity, hA, hB, hctx, ENum.emin_inf_left,
        ENum.emin_fin_zero hk, ENum.fin_ne_inf, ENum.inf_ne_fin, this, hk0]
  · have h0q : ¬ (ENum.fin 0 = ENum.fin q) := by
      simp only [ENum.fin.injEq]; exact fun h => absurd h.symm (ne_of_gt hq)
    simp [calculateMaxCapacity, hA, hB, hctx, ENum.emin_inf_left,
      ENum.emin_fin_zero hq.le, ENum.fin_ne_inf, ENum.inf_ne_fin, h0q]
  · by_cases hk0 : k = 0
    · subst hk0
      have h0q : ¬ (ENum.fin 0 = ENum.fin q) := by
        simp only [ENum.fin.injEq]; exact fun h => absurd h.symm (ne_of_gt hq)
      simp [calculateMaxCapacity, hA, hB, hctx, ENum.emin_fin_zero hk,
        ENum.emin_fin_zero hq.le, ENum.fin_ne_inf, ENum.inf_ne_fin, h0q]
    · have h0q : ¬ (ENum.fin 0 = ENum.fin q) := by
        simp only [ENum.fin.injEq]; exact fun h => absurd h.symm (ne_of_gt hq)
      have h0k : ¬ (ENum.fin 0 = ENum.fin k) := by
        simp only [ENum.fin.injEq]; exact fun h => hk0 h.symm
      simp [calculateMaxCapacity, hA, hB, hctx, ENum.emin_fin_zero hk,
        ENum.emin_fin_zero hq.le, ENum.fin_ne_inf, ENum.inf_ne_fin, h0q, h0k, hk0]

/-- C1 counterexample: at `tpm_limit = 3`, `context_window = 3` and
4 tokens per request (so `maxByTPM = ⌊3/4⌋ = 0` ties with the context
bound), the claim's `limitedBy == 'context'` fails: the source
attributes the zero capacity to `'tpm'`. -/
theorem c1_counterexample :
    ((3 : ℚ) < 2 + 2) ∧
    (calculateMaxCapacity exModelTpmTie 2 2).maxRequestsPerMinute = .fin 0 ∧
    (calculateMaxCapacity exModelTpmTie 2 2).limitedBy ≠ "context" := by
  refine ⟨by norm_num, ?_, ?_⟩ <;>
    norm_num [calculateMaxCapacity, exModelTpmTie, capMaxByRPM, capMaxByTPM,
      capMaxByContext, jsLE, ENum.emin, ENum.fin_ne_inf, ENum.inf_ne_fin,
      strNe_tpm_context]

/-- Witness for C1 (amended) at `context_window = 3` and 4 tokens per
request with no other limit. -/
theorem c1_witness :
    (calculateMaxCapacity exModelCtxOnly 2 2).maxRequestsPerMinute = .fin 0 ∧
    (calculateMaxCapacity exModelCtxOnly 2 2).limitedBy = "context" := by
  have h := c1_capacity_zero_amended exModelCtxOnly 2 2 3 rfl (by norm_num)
    (by norm_num)
    (fun q hq => absurd hq (by simp [exModelCtxOnly]))
    (fun q hq => absurd hq (by simp [exModelCtxOnly]))
    (by norm_num)
  refine ⟨h.1, h.2.1 ?_⟩
  norm_num [calculateMaxCapacity, capMaxByTPM, exModelCtxOnly, ENum.inf_ne_fin]

/-- C4 (confirmed): with a present nonnegative `tpm_limit` and zero
tokens per request, the capacity estimator raises no domain error (it
is a total function of its inputs) and the TPM bound is treated as no
limit: `maxByTPM = Infinity`.  A zero `tpm_limit` is falsy, giving
`Infinity` directly; a positive one divides by zero in JavaScript,
giving `Infinity` as well. -/
theorem c4_maxByTPM_zero_tokens (m : ModelRecord) (t : ℚ)
    (h : m.tpm_limit = .num t) (ht : 0 ≤ t) :
    (calculateMaxCapacity m 0 0).maxByTPM = .inf := by
  by_cases ht0 : t = 0
  · simp [calculateMaxCapacity, capMaxByTPM, h, ht0]
  · have htpos : 0 < t := lt_of_le_of_ne ht (Ne.symm ht0)
    simp [calculateMaxCapacity, capMaxByTPM, h, ht0, htpos]

/-- Witness for C4 at `tpm_limit = 100`. -/
theorem c4_witness :
    exModelRpmTpm.tpm_limit = .num 100 ∧
    (calculateMaxCapacity exModelRpmTpm 0 0).maxByTPM = .inf :=
  ⟨rfl, c4_maxByTPM_zero_tokens exModelRpmTpm 100 rfl (by norm_num)⟩

/-- C9 counterexample: on a record with all three limits absent the
claim's `maxRequestsPerMinute = +∞` with `limitedBy == 'rpm'` fails:
the context comparison `tokensPerRequest <= undefined` is false, so the
capacity is `0` and attributed to `'context'`. -/
theorem c9_counterexample :
    (calculateMaxCapacity exModelAllAbsent 1 1).maxRequestsPerMinute ≠ .inf ∧
    (calculateMaxCapacity exModelAllAbsent 1 1).limitedBy ≠ "rpm" := by
  constructor <;>
    norm_num [calculateMaxCapacity, exModelAllAbsent, capMaxByRPM,
      capMaxByTPM, capMaxByContext, jsLE, ENum.emin, ENum.fin_ne_inf,
      strNe_context_rpm]

/-- C9 (amended): `limitedBy` is indeed never `'none'` — it is always
one of `'rpm'`, `'tpm'`, `'context'` — but on a record with all three
limits absent the result is `maxRequestsPerMinute = 0` with
`limitedBy == 'context'` (the comparison against the missing
`context_window` is false), not `+∞` with `'rpm'` as claimed. -/
theorem c9_limitedBy_never_none (m : ModelRecord) (i o : ℚ) :
    (calculateMaxCapacity m i o).limitedBy ≠ "none" ∧
    (m.rpm_limit = .undef → m.tpm_limit = .undef → m.context_window = .undef →
      (calculateMaxCapacity m i o).maxRequestsPerMinute = .fin 0 ∧
      (calculateMaxCapacity m i o).limitedBy = "context") := by
  constructor
  · rcases calculateMaxCapacity_limitedBy_cases m i o with h | h | ⟨h, _⟩ <;> rw [h]
    · exact strNe_rpm_none
    · exact strNe_tpm_none
    · exact strNe_context_none
  · intro h1 h2 h3
    constructor <;>
      simp [calculateMaxCapacity, capMaxByRPM, capMaxByTPM, capMaxByContext,
        jsLE, h1, h2, h3, ENum.emin, ENum.fin_ne_inf, ENum.inf_ne_fin]

/-- Witness for C9 at the all-absent record. -/
theorem c9_witness :
    (calculateMaxCapacity exModelAllAbsent 1 1).limitedBy ≠ "none" ∧
    ((calculateMaxCapacity exModelAllAbsent 1 1).maxRequestsPerMinute = .fin 0 ∧
     (calculateMaxCapacity exModelAllAbsent 1 1).limitedBy = "context") :=
  ⟨(c9_limitedBy_never_none exModelAllAbsent 1 1).1,
   (c9_limitedBy_never_none exModelAllAbsent 1 1).2 rfl rfl rfl⟩

theorem strBeq_rpm_context : ("rpm" == "context") = false := by decide

theorem strBeq_tpm_context : ("tpm" == "context") = false := by decide

theorem strBeq_tpm_rpm : ("tpm" == "rpm") = false := by decide

theorem strBeq_context_rpm : ("context" == "rpm") = false := by decide

theorem strBeq_rpm_tpm : ("rpm" == "tpm") = false := by decide

theorem strBeq_context_tpm : ("context" == "tpm") = false := by decide

theorem strBeq_warning_error : ("warning" == "error") = false := by decide

theorem strBeq_error_warning : ("error" == "warning") = false := by decide

theorem length_filter_ite_singleton {α : Type} (p : α → Bool) (c : Prop)
    [Decidable c] (w : α) :
    ((if c then [w] else []).filter p).length = if c ∧ p w = true then 1 else 0 := by
  by_cases hc : c
  · cases hpw : p w <;> simp [hc, hpw, List.filter]
  · simp [hc]

/-- C2 counterexample: with `context_window = null` the context check is
not skipped: JavaScript coerces `null` to `0` in
`tokensPerRequest > model.context_window`, so one token per request
already emits a `context` error and validation fails. -/
theorem c2_counterexample :
    ((validateQuotas exModelCtxNull 1 0 1).warnings.filter
      (fun w => w.type == "context")).length = 1 ∧
    (validateQuotas exModelCtxNull 1 0 1).valid = false := by
  constructor <;>
    norm_num [validateQuotas, exModelCtxNull, jsOrNull, jsTruthy, jsGT, jsLE,
      jsPct, jvalMul, List.filter_append, List.filter]

/-- C2 (amended): when `context_window` is absent (`undefined`) the
context check is skipped — no warning of type `context` is emitted, so
validation cannot fail on it — but when it is `null` the comparison
coerces `null` to `0`, so a `context` error warning is emitted exactly
when `inputTokens + outputTokens > 0`. -/
theorem c2_context_absent_amended (m : ModelRecord) (i o r : ℚ) :
    (m.context_window = .undef →
      ((validateQuotas m i o r).warnings.filter
        (fun w => w.type == "context")).length = 0) ∧
    (m.context_window = .null →
      (((validateQuotas m i o r).warnings.filter
        (fun w => w.type == "context")).length = 1 ↔ 0 < i + o)) := by
  constructor
  · intro h
    simp [validateQuotas, h, jsGT, List.filter_append,
      length_filter_ite_singleton, strBeq_rpm_context, strBeq_tpm_context]
  · intro h
    by_cases h0 : 0 < i + o <;>
      simp [validateQuotas, h, jsGT, h0, List.filter_append,
        length_filter_ite_singleton, strBeq_rpm_context, strBeq_tpm_context]

/-- Witness for C2 (amended) at a record with `context_window`
absent. -/
theorem c2_witness :
    ((validateQuotas exModelAllAbsent 1 0 1).warnings.filter
      (fun w => w.type == "context")).length = 0 :=
  (c2_context_absent_amended exModelAllAbsent 1 0 1).1 rfl

/-- C3 counterexample: a present `rpm_limit` whose value is `0` is
falsy, so `limits.rpm = model.rpm_limit || null` conflates it with "no
limit" and the over-limit check is skipped even though
`requestsPerMinute = 5 > 0 = rpm_limit`. -/
theorem c3_counterexample :
    exModelRpmZero.rpm_limit = .num 0 ∧ ((0 : ℚ) < 5) ∧
    ((validateQuotas exModelRpmZero 1 1 5).warnings.filter
      (fun w => w.type == "rpm")).length = 0 := by
  refine ⟨rfl, by norm_num, ?_⟩
  norm_num [validateQuotas, exModelRpmZero, jsOrNull, jsTruthy, jsGT, jsLE,
    jsPct, jvalMul, List.filter_append, List.filter]

/-- C3 (amended): the over-limit checks are performed whenever the
corresponding limit is truthy — present and nonzero — and an over-limit
rate then emits exactly one error warning of the corresponding type; a
present limit with value `0`, however, is treated as absent by the
`|| null` falsy-means-absent normalization, contrary to the claim. -/
theorem c3_over_limit_amended (m : ModelRecord) (i o r : ℚ) :
    (∀ L, m.rpm_limit = .num L → L ≠ 0 → L < r →
      ((validateQuotas m i o r).warnings.filter
        (fun w => w.type == "rpm" && w.severity == "error")).length = 1) ∧
    (∀ T, m.tpm_limit = .num T → T ≠ 0 → T < (i + o) * r →
      ((validateQuotas m i o r).warnings.filter
        (fun w => w.type == "tpm" && w.severity == "error")).length = 1) := by
  constructor
  · intro L hL hL0 hLr
    simp [validateQuotas, hL, hL0, hLr, jsOrNull, jsTruthy, jsGT, jsLE,
      jvalMul, List.filter_append, length_filter_ite_singleton,
      strBeq_tpm_rpm, strBeq_context_rpm, strBeq_warning_error]
  · intro T hT hT0 hTr
    simp [validateQuotas, hT, hT0, hTr, jsOrNull, jsTruthy, jsGT, jsLE,
      jvalMul, List.filter_append, length_filter_ite_singleton,
      strBeq_rpm_tpm, strBeq_context_tpm, strBeq_warning_error]

/-- Witness for C3 (amended): `rpm_limit = 5` exceeded at rate `60`,
and `tpm_limit = 100` exceeded at `(1+1)·60 = 120` tokens/minute. -/
theorem c3_witness :
    ((validateQuotas exModelRpmTpm 1 1 60).warnings.filter
      (fun w => w.type == "rpm" && w.severity == "error")).length = 1 ∧
    ((validateQuotas exModelRpmTpm 1 1 60).warnings.filter
      (fun w => w.type == "tpm" && w.severity == "error")).length = 1 :=
  ⟨(c3_over_limit_amended exModelRpmTpm 1 1 60).1 5 rfl (by norm_num) (by norm_num),
   (c3_over_limit_amended exModelRpmTpm 1 1 60).2 100 rfl (by norm_num) (by norm_num)⟩

theorem strBeq_rpm_rpm : ("rpm" == "rpm") = true := by decide

theorem strBeq_tpm_tpm : ("tpm" == "tpm") = true := by decide

theorem strBeq_error_error : ("error" == "error") = true := by decide

theorem strBeq_warning_warning : ("warning" == "warning") = true := by decide

/-- C6 (confirmed): near-limit boundary behaviour of `validateQuotas`
for a present positive `rpm_limit` `L` (and analogously a present
positive `tpm_limit` `T` against `tokensPerMinute`): at exactly
`r = 0.8·L` no rpm warning at all is emitted (both checks are strict
`>`); for `0.8·L < r ≤ L` exactly one rpm warning of severity
`warning` and none of severity `error`; for `r > L` exactly one rpm
warning of severity `error` and none of severity `warning`. -/
theorem c6_near_limit_boundary (m : ModelRecord) (i o r L : ℚ)
    (hL : m.rpm_limit = .num L) (hLpos : 0 < L) :
    ((r = L * (4/5) →
        ((validateQuotas m i o r).warnings.filter
          (fun w => w.type == "rpm")).length = 0) ∧
     (L * (4/5) < r → r ≤ L →
        ((validateQuotas m i o r).warnings.filter
          (fun w => w.type == "rpm" && w.severity == "warning")).length = 1 ∧
        ((validateQuotas m i o r).warnings.filter
          (fun w => w.type == "rpm" && w.severity == "error")).length = 0) ∧
     (L < r →
        ((validateQuotas m i o r).warnings.filter
          (fun w => w.type == "rpm" && w.severity == "error")).length = 1 ∧
        ((validateQuotas m i o r).warnings.filter
          (fun w => w.type == "rpm" && w.severity == "warning")).length = 0)) ∧
    (∀ T, m.tpm_limit = .num T → 0 < T →
      (((i + o) * r = T * (4/5) →
          ((validateQuotas m i o r).warnings.filter
            (fun w => w.type == "tpm")).length = 0) ∧
       (T * (4/5) < (i + o) * r → (i + o) * r ≤ T →
          ((validateQuotas m i o r).warnings.filter
            (fun w => w.type == "tpm" && w.severity == "warning")).length = 1 ∧
          ((validateQuotas m i o r).warnings.filter
            (fun w => w.type == "tpm" && w.severity == "error")).length = 0) ∧
       (T < (i + o) * r →
          ((validateQuotas m i o r).warnings.filter
            (fun w => w.type == "tpm" && w.severity == "error")).length = 1 ∧
          ((validateQuotas m i o r).warnings.filter
            (fun w => w.type == "tpm" && w.severity == "warning")).length = 0))) := by
  refine ⟨⟨?_, ?_, ?_⟩, ?_⟩
  · intro hr
    have h1 : ¬ (L < r) := by rw [hr]; nlinarith
    have h2 : ¬ (L * (4/5) < r) := by rw [hr]; exact lt_irrefl _
    simp [validateQuotas, hL, hLpos.ne', h1, h2, jsOrNull, jsTruthy, jsGT,
      jsLE, jvalMul, List.filter_append, length_filter_ite_singleton,
      strBeq_tpm_rpm, strBeq_context_rpm, strBeq_rpm_rpm]
  · intro hlo hhi
    have h1 : ¬ (L < r) := not_lt.mpr hhi
    constructor <;>
      simp [validateQuotas, hL, hLpos.ne', h1, hlo, hhi, jsOrNull, jsTruthy,
        jsGT, jsLE, jvalMul, List.filter_append, length_filter_ite_singleton,
        strBeq_tpm_rpm, strBeq_context_rpm, strBeq_rpm_rpm,
        strBeq_warning_warning, strBeq_warning_error, strBeq_error_error,
        strBeq_error_warning, strBeq_tpm_tpm]
  · intro hgt
    have h1 : ¬ (r ≤ L) := not_le.mpr hgt
    constructor <;>
      simp [validateQuotas, hL, hLpos.ne', h1, hgt, jsOrNull, jsTruthy,
        jsGT, jsLE, jvalMul, List.filter_append, length_filter_ite_singleton,
        strBeq_tpm_rpm, strBeq_context_rpm, strBeq_rpm_rpm,
        strBeq_warning_warning, strBeq_warning_error, strBeq_error_error,
        strBeq_error_warning, strBeq_tpm_tpm]
  · intro T hT hTpos
    refine ⟨?_, ?_, ?_⟩
    · intro hr
      have h1 : ¬ (T < (i + o) * r) := by rw [hr]; nlinarith
      have h2 : ¬ (T * (4/5) < (i + o) * r) := by rw [hr]; exact lt_irrefl _
      simp [validateQuotas, hT, hTpos.ne', h1, h2, jsOrNull, jsTruthy, jsGT,
        jsLE, jvalMul, List.filter_append, length_filter_ite_singleton,
        strBeq_rpm_tpm, strBeq_context_tpm, strBeq_tpm_tpm]
    · intro hlo hhi
      have h1 : ¬ (T < (i + o) * r) := not_lt.mpr hhi
      constructor <;>
        simp [validateQuotas, hT, hTpos.ne', h1, hlo, hhi, jsOrNull, jsTruthy,
          jsGT, jsLE, jvalMul, List.filter_append, length_filter_ite_singleton,
          strBeq_rpm_tpm, strBeq_context_tpm, strBeq_tpm_tpm,
          strBeq_warning_warning, strBeq_warning_error, strBeq_error_error,
          strBeq_error_warning, strBeq_rpm_rpm]
    · intro hgt
      have h1 : ¬ ((i + o) * r ≤ T) := not_le.mpr hgt
      constructor <;>
        simp [validateQuotas, hT, hTpos.ne', h1, hgt, jsOrNull, jsTruthy,
          jsGT, jsLE, jvalMul, List.filter_append, length_filter_ite_singleton,
          strBeq_rpm_tpm, strBeq_context_tpm, strBeq_tpm_tpm,
          strBeq_warning_warning, strBeq_warning_error, strBeq_error_error,
          strBeq_error_warning, strBeq_rpm_rpm]

/-- Witness for C6 at `rpm_limit = 5`, rate `5` (inside the 80%–100%
band, `4 < 5 ≤ 5`): one `warning`-severity rpm warning, no
`error`-severity one. -/
theorem c6_witness :
    ((validateQuotas exModelRpmTpm 1 1 5).warnings.filter
      (fun w => w.type == "rpm" && w.severity == "warning")).length = 1 ∧
    ((validateQuotas exModelRpmTpm 1 1 5).warnings.filter
      (fun w => w.type == "rpm" && w.severity == "error")).length = 0 :=
  (c6_near_limit_boundary exModelRpmTpm 1 1 5 5 rfl (by norm_num)).1.2.1
    (by norm_num) (by norm_num)

theorem strNe_duration_total : ¬ ("duration" = "total") := by decide

/-- C5 (confirmed): for a PTU record with a numeric monthly price `p`,
projecting in rate-by-duration mode over `month` with
`daysPerMonth = 30` yields `totalCost = p` exactly, and over `hour`
with `daysPerMonth = d > 0` yields exactly `p / (d · 24)`.  (For the
degenerate price `p = 0` the falsy guard routes through the PAYG branch,
whose total is `0 = p`, so the identity still holds.) -/
theorem c5_ptu_monthly_identity (m : ModelRecord) (i o r d p : ℚ)
    (tq : Option ℚ)
    (hpt : m.pricing_type = "PTU") (hp : m.ptu_price_monthly = .num p)
    (hd : 0 < d) :
    (calculateTotalCost (calculateRequestCost m i o) r
      { mode := some "duration", duration := some "month",
        totalRequests := tq, daysPerMonth := some 30 } (some m)).totalCost = p ∧
    (calculateTotalCost (calculateRequestCost m i o) r
      { mode := some "duration", duration := some "hour",
        totalRequests := tq, daysPerMonth := some d } (some m)).totalCost
      = p / (d * 24) := by
  by_cases hp0 : p = 0
  · constructor <;>
      simp [calculateTotalCost, calculateRequestCost, hpt, hp, hp0, jsTruthy,
        strNe_duration_total]
  · constructor <;>
      simp [calculateTotalCost, calculateRequestCost, hpt, hp, hp0, jsTruthy,
        strNe_duration_total]

/-- Witness for C5 at the PTU record with monthly price 3000,
`daysPerMonth = 30`. -/
theorem c5_witness :
    (calculateTotalCost (calculateRequestCost exModelPTU 5 5) 10
      { mode := some "duration", duration := some "month",
        totalRequests := none, daysPerMonth := some 30 }
      (some exModelPTU)).totalCost = 3000 ∧
    (calculateTotalCost (calculateRequestCost exModelPTU 5 5) 10
      { mode := some "duration", duration := some "hour",
        totalRequests := none, daysPerMonth := some 30 }
      (some exModelPTU)).totalCost = 3000 / (30 * 24) :=
  c5_ptu_monthly_identity exModelPTU 5 5 10 30 3000 none rfl rfl (by norm_num)

/-- C7 (confirmed): PAYG linearity in rate-by-duration mode — scaling
`requestsPerMinute` by any `k ≥ 0` scales `totalCost` by exactly `k`
(same duration and `daysPerMonth`). -/
theorem c7_payg_linearity (m : ModelRecord) (i o r k : ℚ) (dur : String)
    (tq dq : Option ℚ) (hpay : m.pricing_type = "PAYG") (hk : 0 ≤ k) :
    (calculateTotalCost (calculateRequestCost m i o) (k * r)
      { mode := some "duration", duration := some dur,
        totalRequests := tq, daysPerMonth := dq } (some m)).totalCost
    = k * (calculateTotalCost (calculateRequestCost m i o) r
      { mode := some "duration", duration := some dur,
        totalRequests := tq, daysPerMonth := dq } (some m)).totalCost := by
  have hne : ¬ (m.pricing_type = "PTU") := by rw [hpay]; decide
  simp only [calculateTotalCost, calculateRequestCost, if_neg hne]
  simp [strNe_duration_total]
  ring

/-- Witness for C7 at the PAYG record, `duration = day`, `k = 2`. -/
theorem c7_witness :
    (calculateTotalCost (calculateRequestCost exModelPAYG 500 1500) (2 * 100)
      { mode := some "duration", duration := some "day",
        totalRequests := none, daysPerMonth := none }
      (some exModelPAYG)).totalCost
    = 2 * (calculateTotalCost (calculateRequestCost exModelPAYG 500 1500) 100
      { mode := some "duration", duration := some "day",
        totalRequests := none, daysPerMonth := none }
      (some exModelPAYG)).totalCost :=
  c7_payg_linearity exModelPAYG 500 1500 100 2 "day" none none rfl (by norm_num)

/-- C10 (confirmed): a PTU record whose `ptu_price_monthly` is falsy
(absent, `null`, or `0`) fails the PTU guard of `calculateTotalCost`
and is costed through the PAYG branch on the zero-cost PTU request
cost: all aggregate costs are `0` and the projection reports
`isPTU = false`, although the request cost itself has `isPTU = true`. -/
theorem c10_ptu_price_falsy (m : ModelRecord) (i o r : ℚ) (opts : CalcOptions)
    (hpt : m.pricing_type = "PTU") (hp : jsTruthy m.ptu_price_monthly = false) :
    (calculateRequestCost m i o).isPTU = true ∧
    (calculateTotalCost (calculateRequestCost m i o) r opts (some m)).totalInputCost = 0 ∧
    (calculateTotalCost (calculateRequestCost m i o) r opts (some m)).totalOutputCost = 0 ∧
    (calculateTotalCost (calculateRequestCost m i o) r opts (some m)).totalCost = 0 ∧
    (calculateTotalCost (calculateRequestCost m i o) r opts (some m)).isPTU = false := by
  refine ⟨by simp [calculateRequestCost, hpt], ?_, ?_, ?_, ?_⟩ <;>
    simp [calculateTotalCost, calculateRequestCost, hpt, hp]

/-- Witness for C10 at the PTU record with `ptu_price_monthly = null`. -/
theorem c10_witness :
    (calculateRequestCost exModelPTUNoPrice 1 1).isPTU = true ∧
    (calculateTotalCost (calculateRequestCost exModelPTUNoPrice 1 1) 10
      { mode := some "duration", duration := some "day",
        totalRequests := none, daysPerMonth := none }
      (some exModelPTUNoPrice)).totalInputCost = 0 ∧
    (calculateTotalCost (calculateRequestCost exModelPTUNoPrice 1 1) 10
      { mode := some "duration", duration := some "day",
        totalRequests := none, daysPerMonth := none }
      (some exModelPTUNoPrice)).totalOutputCost = 0 ∧
    (calculateTotalCost (calculateRequestCost exModelPTUNoPrice 1 1) 10
      { mode := some "duration", duration := some "day",
        totalRequests := none, daysPerMonth := none }
      (some exModelPTUNoPrice)).totalCost = 0 ∧
    (calculateTotalCost (calculateRequestCost exModelPTUNoPrice 1 1) 10
      { mode := some "duration", duration := some "day",
        totalRequests := none, daysPerMonth := none }
      (some exModelPTUNoPrice)).isPTU = false :=
  c10_ptu_price_falsy exModelPTUNoPrice 1 1 10
    { mode := some "duration", duration := some "day",
      totalRequests := none, daysPerMonth := none } rfl rfl

/-- Stability of the stable merge sort, filter form: the elements
satisfying a predicate on which the comparison never discriminates
(any two such elements compare `le`) appear in the sorted output in
exactly their input order. -/
theorem mergeSort_filter_stable {α : Type} (le : α → α → Bool)
    (htrans : ∀ (a b c : α), le a b → le b c → le a c)
    (htotal : ∀ (a b : α), le a b || le b a)
    (p : α → Bool) (hp : ∀ a b, p a = true → p b = true → le a b = true)
    (l : List α) :
    (l.mergeSort le).filter p = l.filter p := by
  have hpair : (l.filter p).Pairwise (fun a b => le a b) := by
    apply List.pairwise_of_forall_mem_list
    intro a ha b hb
    exact hp a b (List.of_mem_filter ha) (List.of_mem_filter hb)
  have hsub1 : List.Sublist (l.filter p) (l.mergeSort le) :=
    List.sublist_mergeSort htrans htotal hpair (List.filter_sublist l)
  have hsub2 : List.Sublist (l.filter p) ((l.mergeSort le).filter p) := by
    have h := hsub1.filter p
    rwa [List.filter_filter, show (fun a => p a && p a) = p by
      funext a; exact Bool.and_self (p a)] at h
  have hlen : (l.filter p).length = ((l.mergeSort le).filter p).length := by
    rw [← List.countP_eq_length_filter, ← List.countP_eq_length_filter]
    exact ((l.mergeSort_perm le).countP_eq p).symm
  exact (hsub2.eq_of_length hlen).symm

/-- C8 (confirmed): `compareModels` returns the empty list on empty
input, preserves the number of entries, sorts ascending by
`totalCost.totalCost`, and is stable: entries of any fixed total cost
`v` appear in the output in exactly the order their evaluations appear
in the input. -/
theorem c8_compare_sorted_stable (l : List ComparisonInput) :
    compareModels ([] : List ComparisonInput) = [] ∧
    (compareModels l).length = l.length ∧
    (compareModels l).Pairwise
      (fun a b => a.totalCost.totalCost ≤ b.totalCost.totalCost) ∧
    ∀ v : ℚ,
      (compareModels l).filter (fun x => decide (x.totalCost.totalCost = v))
        = (l.map evalComparison).filter
            (fun x => decide (x.totalCost.totalCost = v)) := by
  have htrans : ∀ (a b c : ComparisonResult),
      decide (a.totalCost.totalCost ≤ b.totalCost.totalCost) →
      decide (b.totalCost.totalCost ≤ c.totalCost.totalCost) →
      decide (a.totalCost.totalCost ≤ c.totalCost.totalCost) := by
    intro a b c hab hbc
    simp only [decide_eq_true_eq] at hab hbc ⊢
    exact le_trans hab hbc
  have htotal : ∀ (a b : ComparisonResult),
      (decide (a.totalCost.totalCost ≤ b.totalCost.totalCost) ||
       decide (b.totalCost.totalCost ≤ a.totalCost.totalCost)) = true := by
    intro a b
    simp only [Bool.or_eq_true, decide_eq_true_eq]
    exact le_total _ _
  refine ⟨by simp [compareModels], by simp [compareModels], ?_, ?_⟩
  · have h := List.sorted_mergeSort htrans htotal (l.map evalComparison)
    exact h.imp (fun hab => by simpa using hab)
  · intro v
    exact mergeSort_filter_stable _ htrans htotal
      (fun x => decide (x.totalCost.totalCost = v))
      (fun a b ha hb => by
        simp only [decide_eq_true_eq] at ha hb ⊢
        exact le_of_eq (by rw [ha, hb])) (l.map evalComparison)
